import Mathlib

/-!
Verification of the form-submission relay: the validation & dispatch API
(`src/main-app/app.js`) and the persistence API
(`src/receiver-service/server.js`), shallowly embedded in Lean.

Modelling conventions:
* JSON/JavaScript field values are modelled by `JsVal` (string, integer
  number, null, undefined).  NaN never appears as a field value here; the
  one NaN-producing computation (`calculateAge` on an unparseable date)
  is modelled by `Option Int` with `none` standing for NaN.
* JavaScript `Date` values are modelled by `SimpleDate` (year, month 1-12,
  day).  `new Date(s)` on a string is modelled by `parseDate`, which
  accepts strict ISO `YYYY-MM-DD` strings; every other input (including
  numeric epoch values, which the claims never exercise) is modelled as an
  invalid date (`none`).  The model identifies local time with the parsed
  calendar date.
* Wall-clock instants (`new Date()`, `processedAt`, store timestamps) are
  modelled as natural numbers passed explicitly to each handler.
* A method call on a value lacking it (`(5).trim()`) throws a TypeError in
  JavaScript, caught by the route's `catch` which answers HTTP 500; such
  calls are modelled with `Option`, and a `none` drives the handler to its
  `internalError` outcome.
-/

set_option autoImplicit false

/-- A JavaScript/JSON field value as it arrives in a request body. -/
inductive JsVal where
  | str (s : String)
  | num (n : Int)
  | null
  | undef
deriving DecidableEq, Repr

/-- JavaScript truthiness test used by `!x` presence checks:
`undefined`, `null`, `0` and `""` are falsy. -/
def falsy : JsVal → Bool
  | .undef => true
  | .null => true
  | .num n => n == 0
  | .str s => s == ""

/-- Decimal digits of a natural number, most significant first; the
first argument is recursion fuel (any value above the digit count). -/
def natDigits : Nat → Nat → List Char → List Char
  | 0, _, acc => acc
  | fuel + 1, n, acc =>
    let d := Char.ofNat ('0'.toNat + n % 10)
    if n < 10 then d :: acc
    else natDigits fuel (n / 10) (d :: acc)

/-- JavaScript `String(n)` for an integer number. -/
def jsNumToString (n : Int) : String :=
  match n with
  | .ofNat m => (natDigits (m + 1) m []).asString
  | .negSucc m => ('-' :: natDigits (m + 2) (m + 1) []).asString

/-- JavaScript `String(x)` coercion, as performed by `RegExp.test`. -/
def jsToString : JsVal → String
  | .str s => s
  | .num n => jsNumToString n
  | .null => "null"
  | .undef => "undefined"

/-- The whitespace characters removed by JavaScript `trim` and matched
by `\s` (the ASCII ones; Unicode spaces are not modelled). -/
def jsIsSpaceChar (c : Char) : Bool :=
  c == ' ' || c == '\t' || c == '\n' || c == '\r' || c == '\x0b' || c == '\x0c'

/-- Drop leading JavaScript whitespace. -/
def dropSpaces : List Char → List Char
  | [] => []
  | c :: cs => if jsIsSpaceChar c then dropSpaces cs else c :: cs

/-- JavaScript `s.trim()` on the characters of a string: strip leading
and trailing whitespace. -/
def trimChars (l : List Char) : List Char :=
  (dropSpaces (dropSpaces l.reverse).reverse)

/-- JavaScript `s.trim()`. -/
def jsTrimString (s : String) : String :=
  (trimChars s.data).asString

/-- ASCII lower-casing of one character, as `toLowerCase` acts on the
strings this system handles. -/
def lowerChar (c : Char) : Char :=
  if 'A' ≤ c && c ≤ 'Z' then Char.ofNat (c.toNat + 32) else c

/-- JavaScript `s.toLowerCase()` (ASCII inputs). -/
def jsLowerString (s : String) : String :=
  (s.data.map lowerChar).asString

/-- `x.trim()`: defined on strings only; on any other value the call
throws a TypeError, modelled by `none`. -/
def jsTrim : JsVal → Option String
  | .str s => some (jsTrimString s)
  | _ => none

/-- `x.toLowerCase()`: defined on strings only; otherwise throws
(`none`). -/
def jsToLower : JsVal → Option String
  | .str s => some (jsLowerString s)
  | _ => none

/-- A calendar date, standing for a valid JavaScript `Date`.
JavaScript months are 0-based; here `month` is 1-based, which leaves the
month differences used by `calculateAge` unchanged. -/
structure SimpleDate where
  year : Int
  month : Nat
  day : Nat
deriving DecidableEq, Repr

/-- Day count of a month, with the Gregorian leap-year rule; used to
reject out-of-range ISO date strings the way `Date.parse` does. -/
def daysInMonth (y m : Nat) : Nat :=
  if m == 2 then
    if y % 4 == 0 && (y % 100 != 0 || y % 400 == 0) then 29 else 28
  else if m == 4 || m == 6 || m == 9 || m == 11 then 30
  else 31

/-- Split a character list on a separator character, like
`String.prototype.split` with a one-character separator. -/
def splitChars (sep : Char) : List Char → List (List Char)
  | [] => [[]]
  | c :: cs =>
    let r := splitChars sep cs
    if c == sep then [] :: r
    else
      match r with
      | [] => [[c]]
      | h :: t => (c :: h) :: t

/-- Decimal value of a digit sequence. -/
def digitsToNat (l : List Char) : Nat :=
  l.foldl (fun acc c => acc * 10 + (c.toNat - '0'.toNat)) 0

/-- `new Date(s)` on a string: strict ISO `YYYY-MM-DD` parsing; any other
string is an Invalid Date (`none`).  (Engine-specific fallback formats
are not modelled; no claim exercises them.) -/
def parseDate (s : String) : Option SimpleDate :=
  match splitChars '-' s.data with
  | [ys, ms, ds] =>
    if ys.length == 4 && ms.length == 2 && ds.length == 2
        && ys.all Char.isDigit && ms.all Char.isDigit && ds.all Char.isDigit then
      let y := digitsToNat ys
      let m := digitsToNat ms
      let d := digitsToNat ds
      if 1 ≤ m && m ≤ 12 && 1 ≤ d && d ≤ daysInMonth y m then
        some ⟨(y : Int), m, d⟩
      else none
    else none
  | _ => none

/-- `new Date(dob)` on a request field.  Non-string inputs (numeric epoch
values, `null`) are modelled as invalid dates; no claim depends on them. -/
def jsNewDate : JsVal → Option SimpleDate
  | .str s => parseDate s
  | _ => none

/-- The arithmetic core of `calculateAge` (app.js:13-24) on two valid
dates: year difference, decremented when today's month/day precedes the
birth month/day. -/
def ageOnDate (birthDate today : SimpleDate) : Int :=
  let age := today.year - birthDate.year
  let monthDiff : Int := (today.month : Int) - (birthDate.month : Int)
  if monthDiff < 0 || (monthDiff == 0 && (today.day : Int) < (birthDate.day : Int)) then
    age - 1
  else
    age

/-- `calculateAge(dob)` (app.js:13-24): parses `dob` and derives the age
as of `today`.  An unparseable `dob` gives an Invalid Date whose
components are NaN, so the returned age is NaN — modelled as `none`;
the function never throws. -/
def calculateAge (dob : JsVal) (today : SimpleDate) : Option Int :=
  (jsNewDate dob).map (fun birthDate => ageOnDate birthDate today)

/-- The code's range test `if (age < 0 || age > 150) throw`: true exactly
when it throws, sending the handler to the 400 response.  With a NaN age
(`none`) both comparisons are false, so there is no throw. -/
def ageRangeFails : Option Int → Bool
  | none => false
  | some a => a < 0 || a > 150

/-- `validateName` (app.js:27-30): `/^[a-zA-Z\s]+$/.test(name)`, with
`RegExp.test` coercing its argument to a string. -/
def validateName (name : JsVal) : Bool :=
  let l := (jsToString name).data
  !l.isEmpty && l.all (fun c =>
    ('a' ≤ c && c ≤ 'z') || ('A' ≤ c && c ≤ 'Z') || jsIsSpaceChar c)

/-- `validateMobile` (app.js:33-36): `/^[6789]\d{9}$/.test(mobile)`, with
string coercion. -/
def validateMobile (mobile : JsVal) : Bool :=
  match (jsToString mobile).data with
  | c :: rest =>
    (c == '6' || c == '7' || c == '8' || c == '9')
      && rest.length == 9 && rest.all Char.isDigit
  | [] => false

/-- The body of a `POST /api/post` request. -/
structure MainBody where
  name : JsVal
  mobile : JsVal
  dob : JsVal
  action : JsVal
deriving DecidableEq, Repr

/-- The normalized record built at app.js:93-100.  `age` is `Option Int`
(`none` = NaN); `dob` is forwarded untouched, hence still a `JsVal`. -/
structure ProcessedData where
  name : String
  mobile : String
  dob : JsVal
  age : Option Int
  action : String
  processedAt : Nat
deriving DecidableEq, Repr

/-- HTTP verb chosen by the dispatch switch (app.js:104-126). -/
inductive HttpMethod where
  | POST
  | PUT
  | DELETE
deriving DecidableEq, Repr

/-- The downstream call made at app.js:132.  `body` is the request body
actually transmitted: `axios.post`/`axios.put` take `(url, data, config)`
and send `processedData` as the body, but `axios.delete` takes
`(url, config)` — `processedData` lands in the config argument, whose
keys are not axios options and carry no `data` field, so the DELETE
request is sent with no body at all. -/
structure ForwardRequest where
  method : HttpMethod
  body : Option ProcessedData
deriving DecidableEq, Repr

/-- Outcome of the `POST /api/post` handler: one of the five 400
validation rejections, the 500 catch-all, or a forwarded downstream
call. -/
inductive MainOutcome where
  | missingFields
  | invalidName
  | invalidMobile
  | invalidDob
  | invalidAction
  | internalError
  | forwarded (req : ForwardRequest)
deriving DecidableEq, Repr

/-- HTTP status of each outcome; a forwarded call answers 200 when the
downstream call succeeded and 502 otherwise (app.js:141,152). -/
def mainStatus (downstreamOk : Bool) : MainOutcome → Nat
  | .missingFields => 400
  | .invalidName => 400
  | .invalidMobile => 400
  | .invalidDob => 400
  | .invalidAction => 400
  | .internalError => 500
  | .forwarded _ => if downstreamOk then 200 else 502

/-- The downstream request issued by an outcome, if any. -/
def forwardOf : MainOutcome → Option ForwardRequest
  | .forwarded req => some req
  | _ => none

/-- The `POST /api/post` handler (app.js:39-168): presence check, name,
mobile, dob/age and action validation, normalization, then dispatch of
the normalized record by action.  `today` stands for `new Date()` inside
`calculateAge`, `now` for the `processedAt` timestamp. -/
def apiPost (today : SimpleDate) (now : Nat) (b : MainBody) : MainOutcome :=
  if falsy b.name || falsy b.mobile || falsy b.dob || falsy b.action then
    .missingFields
  else if !validateName b.name then
    .invalidName
  else if !validateMobile b.mobile then
    .invalidMobile
  else if ageRangeFails (calculateAge b.dob today) then
    .invalidDob
  else
    match jsToLower b.action with
    | none => .internalError
    | some actLower =>
      if !(actLower == "create" || actLower == "update" || actLower == "delete") then
        .invalidAction
      else
        match jsTrim b.name with
        | none => .internalError
        | some nm =>
          match jsTrim b.mobile with
          | none => .internalError
          | some mb =>
            let pd : ProcessedData :=
              ⟨nm, mb, b.dob, calculateAge b.dob today, jsTrimString actLower, now⟩
            if actLower == "create" then
              .forwarded ⟨.POST, some pd⟩
            else if actLower == "update" then
              .forwarded ⟨.PUT, some pd⟩
            else if actLower == "delete" then
              .forwarded ⟨.DELETE, none⟩
            else
              .invalidAction

/-- The body of a persistence-API request (server.js destructures six
fields from `req.body`; absent fields are `undefined`). -/
structure RecvBody where
  name : JsVal
  mobile : JsVal
  dob : JsVal
  age : JsVal
  action : JsVal
  processedAt : JsVal
deriving DecidableEq, Repr

/-- A document of the `FormData` collection, after Mongoose casting.
`createdAt`/`updatedAt` are the store timestamps added by
`timestamps: true`. -/
structure StoredRecord where
  name : String
  mobile : String
  dob : String
  age : Int
  action : String
  processedAt : Nat
  createdAt : Nat
  updatedAt : Nat
deriving DecidableEq, Repr

/-- The record collection, in insertion order (Mongoose `findOne` with no
sort returns the first document in natural order). -/
abbrev Store := List StoredRecord

/-- The presence check shared by the insert and upsert handlers
(server.js:63,120): truthiness for name, mobile, dob, action, but only a
strict `=== undefined` test for age. -/
def presenceFail (b : RecvBody) : Bool :=
  falsy b.name || falsy b.mobile || falsy b.dob || b.age == JsVal.undef || falsy b.action

/-- The decimal value of the longest digit run at the head of `l`, or
`none` when the run is empty. -/
def leadingDigits (l : List Char) : Option Nat :=
  match l.takeWhile Char.isDigit with
  | [] => none
  | ds => some (digitsToNat ds)

/-- `parseInt` on a string: skip leading whitespace, optional sign, then
read decimal digits; NaN (`none`) when no digit follows.  (Radix
prefixes like `0x` are not modelled; no claim uses them.) -/
def parseIntStr (s : String) : Option Int :=
  match dropSpaces s.data with
  | '-' :: rest => (leadingDigits rest).map (fun n => -(n : Int))
  | '+' :: rest => (leadingDigits rest).map (fun n => (n : Int))
  | l => (leadingDigits l).map (fun n => (n : Int))

/-- `parseInt(age)` (server.js:75,136,166): numbers pass through,
strings are parsed, `null`/`undefined` coerce to the strings
`"null"`/`"undefined"` and give NaN (`none`). -/
def jsParseInt : JsVal → Option Int
  | .num n => some n
  | .str s => parseIntStr s
  | .null => none
  | .undef => none

/-- Mongoose cast of the `dob` field to its `String` schema type:
strings pass, numbers are stringified, anything else fails the cast
(`none`). -/
def castDob : JsVal → Option String
  | .str s => some s
  | .num n => some (toString n)
  | _ => none

/-- `processedAt ? new Date(processedAt) : new Date()`
(server.js:77,138,168): a falsy field defaults to the current time; a
numeric epoch value is taken as is (negative epochs, valid in
JavaScript, fall outside the `Nat` clock model and are treated as cast
failures); a date-valued string is mapped through `parseDate` to an
encoding of its calendar date (sub-day precision is not modelled); an
unparseable value is an Invalid Date, which fails the Mongoose `Date`
cast at save time (`none`). -/
def resolveProcessedAt (v : JsVal) (now : Nat) : Option Nat :=
  if falsy v then some now
  else
    match v with
    | .num n => if 0 ≤ n then some n.toNat else none
    | .str s => (parseDate s).map (fun d => d.year.toNat * 10000 + d.month * 100 + d.day)
    | _ => some now

/-- The `new FormData({...})` construction plus `save()` validation used
by the insert handler and the upsert fallback-create branch
(server.js:71-80, 132-141): trims name/mobile/action (TypeError on
non-strings), casts dob, `parseInt`s age (NaN fails the `Number` cast at
save), resolves processedAt; any failure surfaces as the route's 500. -/
def buildStored (b : RecvBody) (now : Nat) : Option StoredRecord :=
  match jsTrim b.name, jsTrim b.mobile, castDob b.dob, jsParseInt b.age,
      jsTrim b.action, resolveProcessedAt b.processedAt now with
  | some nm, some mb, some db, some ag, some ac, some pa =>
    some ⟨nm, mb, db, ag, ac, pa, now, now⟩
  | _, _, _, _, _, _ => none

/-- Outcome of a persistence-API handler.  `created` is the insert
route's 201 (`action: 'CREATE'`); `createdFromUpdate` is the upsert
fallback's 201 (`action: 'CREATE (from UPDATE)'`), which is how the API
surfaces that a create, not an update, occurred; `ok` is the upsert
update's 200; `deleted` the delete route's 200. -/
inductive RResult where
  | badRequest
  | created (r : StoredRecord)
  | createdFromUpdate (r : StoredRecord)
  | ok (r : StoredRecord)
  | deleted (r : StoredRecord)
  | notFound
  | internalError
deriving DecidableEq, Repr

/-- HTTP status of each persistence outcome. -/
def RResult.statusCode : RResult → Nat
  | .badRequest => 400
  | .created _ => 201
  | .createdFromUpdate _ => 201
  | .ok _ => 200
  | .deleted _ => 200
  | .notFound => 404
  | .internalError => 500

/-- Whether the response reports that a create occurred (its `action`
field is `'CREATE'` or `'CREATE (from UPDATE)'`). -/
def RResult.reportsCreate : RResult → Bool
  | .created _ => true
  | .createdFromUpdate _ => true
  | _ => false

/-- Replace the first element satisfying `p` — the effect of `save()` on
a document fetched with `findOne`. -/
def replaceFirst {α : Type} (p : α → Bool) (a : α) : List α → List α
  | [] => []
  | x :: xs => if p x then a :: xs else x :: replaceFirst p a xs

/-- Remove the first element satisfying `p` — the effect of
`findOneAndDelete`. -/
def removeFirst {α : Type} (p : α → Bool) : List α → List α
  | [] => []
  | x :: xs => if p x then xs else x :: removeFirst p xs

/-- `POST /api/postdata/db` (server.js:56-110): presence check, then
build and save a new document; a cast/TypeError failure is caught and
answered 500 with the store unchanged. -/
def postdataPost (st : Store) (b : RecvBody) (now : Nat) : RResult × Store :=
  if presenceFail b then (.badRequest, st)
  else
    match buildStored b now with
    | none => (.internalError, st)
    | some r => (.created r, st ++ [r])

/-- `PUT /api/postdata/db` (server.js:113-200): presence check, lookup
by trimmed mobile; on a miss, the same build-and-save as the insert
route; on a hit, overwrite name, dob, age, action, processedAt on the
fetched document (its mobile is never assigned) and save, which also
refreshes `updatedAt`. -/
def postdataPut (st : Store) (b : RecvBody) (now : Nat) : RResult × Store :=
  if presenceFail b then (.badRequest, st)
  else
    match jsTrim b.mobile with
    | none => (.internalError, st)
    | some mb =>
      match st.find? (fun r => r.mobile == mb) with
      | none =>
        match buildStored b now with
        | none => (.internalError, st)
        | some r => (.createdFromUpdate r, st ++ [r])
      | some old =>
        match jsTrim b.name, castDob b.dob, jsParseInt b.age, jsTrim b.action,
            resolveProcessedAt b.processedAt now with
        | some nm, some db, some ag, some ac, some pa =>
          let upd : StoredRecord :=
            { old with name := nm, dob := db, age := ag, action := ac,
                       processedAt := pa, updatedAt := now }
          (.ok upd, replaceFirst (fun r => r.mobile == mb) upd st)
        | _, _, _, _, _ => (.internalError, st)

/-- `DELETE /api/postdata/db` (server.js:203-256): requires a truthy
mobile, then `findOneAndDelete` by trimmed mobile; a miss answers 404
with the store untouched. -/
def postdataDelete (st : Store) (b : RecvBody) : RResult × Store :=
  if falsy b.mobile then (.badRequest, st)
  else
    match jsTrim b.mobile with
    | none => (.internalError, st)
    | some mb =>
      match st.find? (fun r => r.mobile == mb) with
      | none => (.notFound, st)
      | some r => (.deleted r, removeFirst (fun r => r.mobile == mb) st)

/-- Date order used to state the dob claims: `d` is on or before `t` in
calendar order. -/
def dateLE (d t : SimpleDate) : Prop :=
  d.year < t.year ∨ (d.year = t.year ∧
    (d.month < t.month ∨ (d.month = t.month ∧ d.day ≤ t.day)))

instance (d t : SimpleDate) : Decidable (dateLE d t) := by
  unfold dateLE; infer_instance

/-- Arithmetic fact about `ageOnDate`: a non-negative derived age means
the birth date is on or before the evaluation date. -/
theorem ageOnDate_nonneg_dateLE (d t : SimpleDate) (h : 0 ≤ ageOnDate d t) : dateLE d t := by
  simp only [ageOnDate] at h
  unfold dateLE
  split at h <;> rename_i hc <;>
    simp only [decide_eq_true_eq, Bool.or_eq_true, Bool.and_eq_true,
      beq_iff_eq, not_or, not_and, not_lt] at hc <;> omega

/-- C1: the dispatch maps create to a POST and update to a PUT of the
insert/upsert operations with the normalized record as body; but for
action delete, `axios.delete(url, config)` receives `processedData` as
its config argument, so the DELETE request carries no body at all and
the persistence delete operation, seeing no mobile, answers 400 — the
normalized mobile never reaches it. -/
theorem c1_delete_dispatch_sends_no_body :
    apiPost ⟨2026, 10, 11⟩ 0 ⟨.str "Asha Rao", .str "9876543210", .str "1995-01-01", .str "create"⟩
      = .forwarded ⟨.POST, some ⟨"Asha Rao", "9876543210", .str "1995-01-01", some 31, "create", 0⟩⟩
    ∧ apiPost ⟨2026, 10, 11⟩ 0 ⟨.str "Asha Rao", .str "9876543210", .str "1995-01-01", .str "update"⟩
      = .forwarded ⟨.PUT, some ⟨"Asha Rao", "9876543210", .str "1995-01-01", some 31, "update", 0⟩⟩
    ∧ apiPost ⟨2026, 10, 11⟩ 0 ⟨.str "Asha Rao", .str "9876543210", .str "1995-01-01", .str "delete"⟩
      = .forwarded ⟨.DELETE, none⟩
    ∧ (∀ st : Store,
        postdataDelete st ⟨.undef, .undef, .undef, .undef, .undef, .undef⟩ = (.badRequest, st)) :=
  ⟨by decide, by decide, by decide, fun st => rfl⟩

/-- C2: with all other fields valid, a dob string that does not parse
(`new Date` gives an Invalid Date, so the derived age is NaN) is NOT
rejected with the 400 InvalidDob response: the NaN age passes the range
test, and the request is forwarded to the persistence insert with
age NaN. -/
theorem c2_unparseable_dob_forwarded :
    jsNewDate (.str "garbage") = none
    ∧ apiPost ⟨2026, 10, 11⟩ 0 ⟨.str "Asha Rao", .str "9876543210", .str "garbage", .str "create"⟩
      = .forwarded ⟨.POST, some ⟨"Asha Rao", "9876543210", .str "garbage", none, "create", 0⟩⟩ :=
  ⟨by decide, by decide⟩

/-- C3: for any request body that passes the shared presence check and
whose trimmed mobile matches no persisted record, the upsert route
produces exactly the store the insert route would produce, and on
success it answers 201 with a response reporting a create (never an
update); on a coercion failure both routes answer 500 with the store
unchanged. -/
theorem c3_upsert_missing_mobile_acts_as_insert
    (st : Store) (b : RecvBody) (now : Nat) (mb : String)
    (hp : presenceFail b = false)
    (hm : jsTrim b.mobile = some mb)
    (hf : st.find? (fun r => r.mobile == mb) = none) :
    (postdataPut st b now).2 = (postdataPost st b now).2
    ∧ ((∃ r, buildStored b now = some r
          ∧ postdataPost st b now = (.created r, st ++ [r])
          ∧ postdataPut st b now = (.createdFromUpdate r, st ++ [r])
          ∧ (RResult.createdFromUpdate r).statusCode = 201
          ∧ (RResult.createdFromUpdate r).reportsCreate = true)
       ∨ (buildStored b now = none
          ∧ postdataPost st b now = (.internalError, st)
          ∧ postdataPut st b now = (.internalError, st))) := by
  unfold postdataPost postdataPut
  simp only [hp, hm, hf, Bool.false_eq_true, if_false]
  cases h : buildStored b now with
  | none => simp [h, RResult.statusCode, RResult.reportsCreate]
  | some r => simp [h, RResult.statusCode, RResult.reportsCreate]

/-- C3 witness: a concrete upsert into the empty store. -/
theorem c3_upsert_missing_mobile_acts_as_insert_witness :
    (postdataPut [] ⟨.str "Asha Rao", .str "9876543210", .str "1995-01-01", .num 31, .str "update", .undef⟩ 5).2
      = (postdataPost [] ⟨.str "Asha Rao", .str "9876543210", .str "1995-01-01", .num 31, .str "update", .undef⟩ 5).2
    ∧ ((∃ r, buildStored ⟨.str "Asha Rao", .str "9876543210", .str "1995-01-01", .num 31, .str "update", .undef⟩ 5 = some r
          ∧ postdataPost [] ⟨.str "Asha Rao", .str "9876543210", .str "1995-01-01", .num 31, .str "update", .undef⟩ 5 = (.created r, [] ++ [r])
          ∧ postdataPut [] ⟨.str "Asha Rao", .str "9876543210", .str "1995-01-01", .num 31, .str "update", .undef⟩ 5 = (.createdFromUpdate r, [] ++ [r])
          ∧ (RResult.createdFromUpdate r).statusCode = 201
          ∧ (RResult.createdFromUpdate r).reportsCreate = true)
       ∨ (buildStored ⟨.str "Asha Rao", .str "9876543210", .str "1995-01-01", .num 31, .str "update", .undef⟩ 5 = none
          ∧ postdataPost [] ⟨.str "Asha Rao", .str "9876543210", .str "1995-01-01", .num 31, .str "update", .undef⟩ 5 = (.internalError, [])
          ∧ postdataPut [] ⟨.str "Asha Rao", .str "9876543210", .str "1995-01-01", .num 31, .str "update", .undef⟩ 5 = (.internalError, []))) :=
  c3_upsert_missing_mobile_acts_as_insert []
    ⟨.str "Asha Rao", .str "9876543210", .str "1995-01-01", .num 31, .str "update", .undef⟩ 5
    "9876543210" (by decide) (by decide) rfl

/-- C4: when the trimmed mobile matches a persisted record and every
field coercion succeeds, the upsert overwrites name, dob, age, action
and processedAt on that record, refreshes `updatedAt` to the save time,
and leaves both the stored mobile and `createdAt` untouched; under a
clock that has advanced past the record's last `updatedAt`, the store
modification timestamp strictly increases. -/
theorem c4_upsert_existing_preserves_mobile
    (st : Store) (b : RecvBody) (now : Nat) (mb nm db ac : String) (ag : Int) (pa : Nat)
    (old : StoredRecord)
    (hp : presenceFail b = false)
    (hm : jsTrim b.mobile = some mb)
    (hf : st.find? (fun r => r.mobile == mb) = some old)
    (hn : jsTrim b.name = some nm)
    (hd : castDob b.dob = some db)
    (ha : jsParseInt b.age = some ag)
    (hc : jsTrim b.action = some ac)
    (hpa : resolveProcessedAt b.processedAt now = some pa)
    (ht : old.updatedAt < now) :
    ∃ upd : StoredRecord,
      postdataPut st b now = (.ok upd, replaceFirst (fun r => r.mobile == mb) upd st)
      ∧ upd.mobile = old.mobile
      ∧ upd.createdAt = old.createdAt
      ∧ upd.name = nm ∧ upd.dob = db ∧ upd.age = ag ∧ upd.action = ac
      ∧ upd.processedAt = pa ∧ upd.updatedAt = now
      ∧ old.updatedAt < upd.updatedAt := by
  refine ⟨{ old with
      name := nm
      dob := db
      age := ag
      action := ac
      processedAt := pa
      updatedAt := now }, ?_, rfl, rfl, rfl, rfl, rfl, rfl, rfl, rfl, ht⟩
  unfold postdataPut
  simp only [hp, hm, hf, hn, hd, ha, hc, hpa, Bool.false_eq_true, if_false]

/-- C4 witness: a concrete upsert over a one-record store. -/
theorem c4_upsert_existing_preserves_mobile_witness :
    ∃ upd : StoredRecord,
      postdataPut [⟨"Old Name", "9876543210", "1990-01-01", 30, "create", 1, 1, 1⟩]
          ⟨.str "New Name", .str "9876543210", .str "1992-02-02", .num 33, .str "update", .num 50⟩ 99
        = (.ok upd, replaceFirst (fun r => r.mobile == "9876543210") upd
            [⟨"Old Name", "9876543210", "1990-01-01", 30, "create", 1, 1, 1⟩])
      ∧ upd.mobile = (⟨"Old Name", "9876543210", "1990-01-01", 30, "create", 1, 1, 1⟩ : StoredRecord).mobile
      ∧ upd.createdAt = (⟨"Old Name", "9876543210", "1990-01-01", 30, "create", 1, 1, 1⟩ : StoredRecord).createdAt
      ∧ upd.name = "New Name" ∧ upd.dob = "1992-02-02" ∧ upd.age = 33 ∧ upd.action = "update"
      ∧ upd.processedAt = 50 ∧ upd.updatedAt = 99
      ∧ (⟨"Old Name", "9876543210", "1990-01-01", 30, "create", 1, 1, 1⟩ : StoredRecord).updatedAt < upd.updatedAt :=
  c4_upsert_existing_preserves_mobile [⟨"Old Name", "9876543210", "1990-01-01", 30, "create", 1, 1, 1⟩]
    ⟨.str "New Name", .str "9876543210", .str "1992-02-02", .num 33, .str "update", .num 50⟩ 99
    "9876543210" "New Name" "1992-02-02" "update" 33 50
    ⟨"Old Name", "9876543210", "1990-01-01", 30, "create", 1, 1, 1⟩
    (by decide) (by decide) (by decide) (by decide) (by decide) (by decide) (by decide) (by decide) (by decide)

/-- C5: a delete request with a present mobile that matches no persisted
record answers 404 NotFound — a reported condition, not a thrown
server error — and the record collection is returned unchanged. -/
theorem c5_delete_missing_mobile_not_found
    (st : Store) (b : RecvBody) (mb : String)
    (h1 : falsy b.mobile = false)
    (h2 : jsTrim b.mobile = some mb)
    (h3 : st.find? (fun r => r.mobile == mb) = none) :
    postdataDelete st b = (.notFound, st) ∧ RResult.notFound.statusCode = 404 := by
  unfold postdataDelete
  simp only [h1, h2, h3, Bool.false_eq_true, if_false, RResult.statusCode, and_self]

/-- C5 witness: deleting an absent mobile from a one-record store. -/
theorem c5_delete_missing_mobile_not_found_witness :
    postdataDelete [⟨"Asha Rao", "9876543210", "1995-01-01", 31, "create", 7, 7, 7⟩]
        ⟨.undef, .str "9123456789", .undef, .undef, .undef, .undef⟩
      = (.notFound, [⟨"Asha Rao", "9876543210", "1995-01-01", 31, "create", 7, 7, 7⟩])
    ∧ RResult.notFound.statusCode = 404 :=
  c5_delete_missing_mobile_not_found
    [⟨"Asha Rao", "9876543210", "1995-01-01", 31, "create", 7, 7, 7⟩]
    ⟨.undef, .str "9123456789", .undef, .undef, .undef, .undef⟩ "9123456789"
    (by decide) (by decide) (by decide)

/-- C6: whenever `POST /api/post` answers HTTP 400 — which is exactly
the validation failures: presence, name, mobile, dob/age range, action —
no downstream persistence call is issued for that request, whatever the
would-be downstream result. -/
theorem c6_validation_failure_never_forwards
    (today : SimpleDate) (now : Nat) (b : MainBody) (downstreamOk : Bool)
    (h : mainStatus downstreamOk (apiPost today now b) = 400) :
    forwardOf (apiPost today now b) = none := by
  cases ho : apiPost today now b <;> simp only [forwardOf]
  rw [ho] at h
  cases downstreamOk <;> simp [mainStatus] at h

/-- C6 witness: a name containing digits is rejected with 400 and
nothing is forwarded. -/
theorem c6_validation_failure_never_forwards_witness :
    forwardOf (apiPost ⟨2024, 1, 1⟩ 0
      ⟨.str "Asha123", .str "9876543210", .str "1995-01-01", .str "create"⟩) = none :=
  c6_validation_failure_never_forwards ⟨2024, 1, 1⟩ 0
    ⟨.str "Asha123", .str "9876543210", .str "1995-01-01", .str "create"⟩ true (by decide)

/-- C7: age derivation for DOB 2000-06-15: on 2024-06-14 the derived
age is 23; on the exact anniversary 2024-06-15 it is 24; and on any
later day of 2024 (month past June, or June on/after the 15th) it stays
24 — the age increments exactly on the anniversary. -/
theorem c7_age_anniversary_boundary :
    calculateAge (.str "2000-06-15") ⟨2024, 6, 14⟩ = some 23
    ∧ calculateAge (.str "2000-06-15") ⟨2024, 6, 15⟩ = some 24
    ∧ ∀ m d : Nat, (6 < m ∨ (m = 6 ∧ 15 ≤ d)) →
        calculateAge (.str "2000-06-15") ⟨2024, m, d⟩ = some 24 := by
  refine ⟨by decide, by decide, ?_⟩
  intro m d h
  have hp : jsNewDate (.str "2000-06-15") = some ⟨2000, 6, 15⟩ := by decide
  unfold calculateAge
  rw [hp, Option.map_some']
  simp only [ageOnDate, Option.some_inj]
  split <;> rename_i hc <;>
    simp only [decide_eq_true_eq, Bool.or_eq_true, Bool.and_eq_true,
      beq_iff_eq, not_or, not_and, not_lt] at hc ⊢ <;> omega

/-- C7 witness: a later date in the anniversary year, 2024-08-01, still
gives age 24. -/
theorem c7_age_anniversary_boundary_witness :
    calculateAge (.str "2000-06-15") ⟨2024, 8, 1⟩ = some 24 :=
  c7_age_anniversary_boundary.2.2 8 1 (Or.inl (by omega))

/-- C8 counterexample: a dob equal to the current date — not strictly in
the past — is accepted: with today 2024-06-15 the dob string
"2024-06-15" derives age 0, passes the range check, and the request is
forwarded rather than rejected. -/
theorem c8_dob_equal_today_accepted :
    jsNewDate (.str "2024-06-15") = some ⟨2024, 6, 15⟩
    ∧ apiPost ⟨2024, 6, 15⟩ 0 ⟨.str "Asha Rao", .str "9876543210", .str "2024-06-15", .str "create"⟩
      = .forwarded ⟨.POST, some ⟨"Asha Rao", "9876543210", .str "2024-06-15", some 0, "create", 0⟩⟩ :=
  ⟨by decide, by decide⟩

/-- C8 (amended): for every request accepted by `POST /api/post` whose
dob parses as a calendar date, that date is on or before the current
date — a strictly future dob is rejected, while a dob equal to the
current date is accepted with derived age 0. -/
theorem c8_accepted_dob_not_future
    (today : SimpleDate) (now : Nat) (b : MainBody) (d : SimpleDate) (req : ForwardRequest)
    (hd : jsNewDate b.dob = some d)
    (hf : apiPost today now b = .forwarded req) :
    dateLE d today := by
  unfold apiPost at hf
  split at hf
  · exact absurd hf (by simp)
  split at hf
  · exact absurd hf (by simp)
  split at hf
  · exact absurd hf (by simp)
  split at hf
  · exact absurd hf (by simp)
  rename_i hAge
  have hAge' : ageRangeFails (calculateAge b.dob today) = false := by
    revert hAge
    cases ageRangeFails (calculateAge b.dob today) <;> simp
  rw [calculateAge, hd, Option.map_some'] at hAge'
  have h0 : 0 ≤ ageOnDate d today := by
    simp only [ageRangeFails, Bool.or_eq_false_iff, decide_eq_false_iff_not, not_lt] at hAge'
    exact hAge'.1
  exact ageOnDate_nonneg_dateLE d today h0

/-- C8 witness: an accepted request with dob 1995-01-01 under current
date 2026-10-11; the parsed dob is indeed on or before today. -/
theorem c8_accepted_dob_not_future_witness :
    dateLE ⟨1995, 1, 1⟩ ⟨2026, 10, 11⟩ :=
  c8_accepted_dob_not_future ⟨2026, 10, 11⟩ 0
    ⟨.str "Asha Rao", .str "9876543210", .str "1995-01-01", .str "create"⟩
    ⟨1995, 1, 1⟩ ⟨.POST, some ⟨"Asha Rao", "9876543210", .str "1995-01-01", some 31, "create", 0⟩⟩
    (by decide) (by decide)

/-- C9: a body whose mobile is the JSON number 9876543210 (other fields
valid strings) passes the mobile regex — `test` coerces the number to
its digit string — but normalization then calls `trim` on the
non-string mobile, a TypeError caught by the outer handler: the request
ends in the 500 internal-error response, neither a 400 rejection nor a
success. -/
theorem c9_numeric_mobile_internal_error :
    validateMobile (.num 9876543210) = true
    ∧ jsTrim (.num 9876543210) = none
    ∧ apiPost ⟨2026, 10, 11⟩ 0 ⟨.str "Asha Rao", .num 9876543210, .str "1995-01-01", .str "create"⟩
      = .internalError
    ∧ mainStatus true .internalError = 500 :=
  ⟨by decide, by decide, by decide, by decide⟩

/-- C10: an insert body whose age is null (other fields valid) passes
the presence check — which only tests `age === undefined` — but
`parseInt` gives NaN, the store rejects the record at save, and the
route answers 500 InternalError with nothing persisted, for every prior
store content and save time. -/
theorem c10_insert_null_age_internal_error :
    ∀ (st : Store) (now : Nat),
      presenceFail ⟨.str "Asha Rao", .str "9876543210", .str "1995-01-01", .null, .str "create", .undef⟩ = false
      ∧ jsParseInt .null = none
      ∧ postdataPost st ⟨.str "Asha Rao", .str "9876543210", .str "1995-01-01", .null, .str "create", .undef⟩ now
        = (.internalError, st)
      ∧ RResult.internalError.statusCode = 500 :=
  fun st now => ⟨rfl, rfl, rfl, rfl⟩
